import Mathlib

/-!
Verification of the ArchitechLens serialization core (src/main.py) against
its natural-language specification.

The development shallowly embeds the Python program:

* JSON-compatible trees (the result of json.load / input of json.dump) are
  the inductive JValue, with JSON numbers modelled as rationals.
* The dataclasses GeometricProperties, ArchitecturalElement (with its
  concrete subclasses Beam, Wall, Column) and ArchitecturalModel are Lean
  structures; their generated constructors together with the validating
  post-init hooks become explicit construct functions returning Except.
* Python values flowing through the generic deserializer
  _deserialize_dataclass are the inductive PyVal: a field value is either a
  raw JSON tree passed through unconverted, or an already-typed value.
* The exception classes of the program (plus the Python built-ins it
  raises or catches) are the inductive AppError.
* The ArchitechLens store (load_model / save_model) is a function over an
  explicit state carrying the model directory contents and the
  current_model selection; the filesystem plus json.load is modelled as a
  mapping from file name to either a parsed JSON tree or syntactically
  invalid content.
-/

namespace ArchLens

/-- A JSON-compatible tree, as produced by json.load.  Numbers are
modelled as rationals (no claim in this development depends on binary
floating-point representation). -/
inductive JValue where
  | null : JValue
  | bool (b : Bool) : JValue
  | num (q : ℚ) : JValue
  | str (s : String) : JValue
  | arr (items : List JValue) : JValue
  | obj (entries : List (String × JValue)) : JValue
deriving Repr

/-- Association-list lookup, the embedding of Python dict subscripting /
dict.get for parsed-JSON objects (whose keys are unique). -/
def alistLookup {α : Type} : List (String × α) → String → Option α
  | [], _ => none
  | (k, v) :: rest, key => if key = k then some v else alistLookup rest key

/-- dict.pop: remove the entry with the given key. -/
def alistErase {α : Type} : List (String × α) → String → List (String × α)
  | [], _ => []
  | (k, v) :: rest, key => if key = k then rest else (k, v) :: alistErase rest key

/-- dict assignment d[k] = v: overwrite in place, or append a new key. -/
def alistInsert {α : Type} : List (String × α) → String → α → List (String × α)
  | [], key, v => [(key, v)]
  | (k, w) :: rest, key, v =>
      if key = k then (k, v) :: rest else (k, w) :: alistInsert rest key v

/-- The ElementType enum of the program (src/main.py, class ElementType). -/
inductive ElementType where
  | beam | wall | column | door | window | slab | roof
deriving DecidableEq, Repr

/-- The underlying wire value of each ElementType member. -/
def ElementType.value : ElementType → String
  | .beam => "Beam"
  | .wall => "Wall"
  | .column => "Column"
  | .door => "Door"
  | .window => "Window"
  | .slab => "Slab"
  | .roof => "Roof"

/-- ElementType(value): enum lookup by underlying value; None encodes the
ValueError branch. -/
def elementTypeOfValue (s : String) : Option ElementType :=
  if s = "Beam" then some .beam
  else if s = "Wall" then some .wall
  else if s = "Column" then some .column
  else if s = "Door" then some .door
  else if s = "Window" then some .window
  else if s = "Slab" then some .slab
  else if s = "Roof" then some .roof
  else none

/-- The MaterialType enum of the program. -/
inductive MaterialType where
  | concrete | steel | wood | glass | brick | plaster
deriving DecidableEq, Repr

/-- The underlying wire value of each MaterialType member. -/
def MaterialType.value : MaterialType → String
  | .concrete => "Concrete"
  | .steel => "Steel"
  | .wood => "Wood"
  | .glass => "Glass"
  | .brick => "Brick"
  | .plaster => "Plaster"

/-- The exception kinds raised or caught by the program: its own exception
classes (ValidationError, ElementNotFoundError, DuplicateElementError,
ArchitechLensError) and the Python built-ins that reach its handlers
(TypeError, AttributeError, FileNotFoundError, json.JSONDecodeError is
translated at the store boundary and is represented by the invalid-file
case of the store state, see FileData). -/
inductive AppError where
  | validationError (msg : String)
  | elementNotFoundError (msg : String)
  | duplicateElementError (msg : String)
  | typeError (msg : String)
  | attributeError (msg : String)
  | fileNotFoundError (msg : String)
  | architechLensError (msg : String)
deriving DecidableEq, Repr

/-- The dataclass GeometricProperties: three numeric dimensions.  Its
validating post-init hook lives in constructGeometric below; every value
this development builds or decodes goes through it. -/
structure GeometricProperties where
  length : ℚ
  width : ℚ
  height : ℚ
deriving DecidableEq, Repr

/-- The concrete subclasses of the abstract ArchitecturalElement; the
runtime class of an element instance (needed to state which shape the
polymorphic decoder produced). -/
inductive ConcreteClass where
  | beam | wall | column
deriving DecidableEq, Repr

/-- The element_type each concrete subclass fixes with init=False. -/
def ConcreteClass.fixedType : ConcreteClass → ElementType
  | .beam => ElementType.beam
  | .wall => ElementType.wall
  | .column => ElementType.column

/-- An ArchitecturalElement instance (field layout shared by Beam, Wall and
Column; cls records the concrete runtime class). -/
structure ArchElement where
  cls : ConcreteClass
  id : String
  name : String
  element_type : ElementType
  material : MaterialType
  geometric_properties : GeometricProperties
  custom_properties : List (String × JValue)
deriving Repr

/-- An ArchitecturalModel instance: a display name and the mapping from
element id to element (insertion-ordered, as a Python dict). -/
structure ArchModel where
  name : String
  elements : List (String × ArchElement)
deriving Repr

/-- A Python value as it flows through _deserialize_dataclass: either a raw
JSON tree passed through unconverted (base-type, dict-typed and unknown
fields), or an already-typed value produced by a conversion branch or by a
dataclass constructor. -/
inductive PyVal where
  | json (j : JValue) : PyVal
  | elementType (e : ElementType) : PyVal
  | materialType (m : MaterialType) : PyVal
  | geom (g : GeometricProperties) : PyVal
  | element (e : ArchElement) : PyVal
  | model (m : ArchModel) : PyVal
deriving Repr

/-- Python truthiness of a value reaching a dataclass constructor (used by
the falsy checks "if not self.id" etc. in the post-init hooks). -/
def pyFalsy : PyVal → Bool
  | .json .null => true
  | .json (.bool b) => !b
  | .json (.num q) => q == 0
  | .json (.str s) => s == ""
  | .json (.arr items) => items.isEmpty
  | .json (.obj entries) => entries.isEmpty
  | _ => false

/-- isinstance(v, (int, float)) combined with reading the numeric value.
Python bool is a subclass of int, so JSON true and false count as the
numbers 1 and 0. -/
def pyNum : PyVal → Option ℚ
  | .json (.num q) => some q
  | .json (.bool b) => some (if b then 1 else 0)
  | _ => none

/-- str(v) for the rare dynamically-typed corner in which the program
stores a truthy non-string value in a String-typed slot (e.g. a numeric
model name); only the string image is observable downstream (f-string
file names, messages).  Unreachable in every theorem of this file; exact
Python str() formatting of composites is not reproduced. -/
def pyStr : PyVal → String
  | .json (.str s) => s
  | .json .null => "None"
  | .json (.bool true) => "True"
  | .json (.bool false) => "False"
  | .json (.num q) => toString q
  | .json (.arr _) => "list"
  | .json (.obj _) => "dict"
  | .elementType e => e.value
  | .materialType m => m.value
  | .geom _ => "GeometricProperties"
  | .element _ => "ArchitecturalElement"
  | .model _ => "ArchitecturalModel"

/-- First keyword argument not accepted by a constructor signature; the
CPython call machinery raises TypeError for it. -/
def firstUnexpected (allowed : List String) : List (String × PyVal) → Option String
  | [] => none
  | (k, _) :: rest => if allowed.contains k then firstUnexpected allowed rest else some k

/-- Keyword parameters of the generated GeometricProperties constructor. -/
def gpInitKeys : List String := ["length", "width", "height"]

/-- GeometricProperties(**fv): the generated constructor (unexpected or
missing keyword arguments raise TypeError) followed by the post-init
validation that every dimension is a positive int or float. -/
def constructGeometric (fv : List (String × PyVal)) : Except AppError PyVal :=
  match firstUnexpected gpInitKeys fv with
  | some k => .error (.typeError ("got an unexpected keyword argument " ++ k))
  | none =>
    match alistLookup fv "length", alistLookup fv "width", alistLookup fv "height" with
    | some lv, some wv, some hv =>
        match pyNum lv, pyNum wv, pyNum hv with
        | some l, some w, some h =>
            if 0 < l ∧ 0 < w ∧ 0 < h then .ok (.geom ⟨l, w, h⟩)
            else .error (.validationError
              "Abmessungen (Laenge, Breite, Hoehe) muessen positive Zahlen sein.")
        | _, _, _ => .error (.validationError
            "Abmessungen (Laenge, Breite, Hoehe) muessen positive Zahlen sein.")
    | _, _, _ => .error (.typeError "missing required positional argument")

/-- Keyword parameters of the generated Beam/Wall/Column constructors.
The redeclared element_type field is init=False, so it is NOT a
constructor parameter of the subclasses. -/
def elemInitKeys : List String := ["id", "name", "material", "geometric_properties", "custom_properties"]

/-- Beam/Wall/Column(**fv): the generated constructor (element_type is
init=False with a fixed default; unexpected or missing keyword arguments
raise TypeError) followed by the shared post-init validation of
ArchitecturalElement (non-falsy id and name, isinstance checks on
material and geometric_properties; the element_type isinstance check and
the subclass-specific equality check always pass since the field is
fixed).  custom_properties defaults to an empty dict and is not validated;
via the decoder it can only ever be absent, so the non-dict fallback to an
empty mapping is unreachable in this development. -/
def constructElement (cls : ConcreteClass) (fv : List (String × PyVal)) : Except AppError PyVal :=
  match firstUnexpected elemInitKeys fv with
  | some k => .error (.typeError ("got an unexpected keyword argument " ++ k))
  | none =>
    match alistLookup fv "id", alistLookup fv "name",
          alistLookup fv "material", alistLookup fv "geometric_properties" with
    | some idV, some nameV, some matV, some gpV =>
        let cp : List (String × JValue) :=
          match alistLookup fv "custom_properties" with
          | some (.json (.obj entries)) => entries
          | _ => []
        if pyFalsy idV then .error (.validationError "Element-ID darf nicht leer sein.")
        else if pyFalsy nameV then .error (.validationError "Element-Name darf nicht leer sein.")
        else
          match matV with
          | .materialType mt =>
              match gpV with
              | .geom g =>
                  .ok (.element ⟨cls, pyStr idV, pyStr nameV, cls.fixedType, mt, g, cp⟩)
              | _ => .error (.validationError
                  "Ungueltige geometrische Eigenschaften. Muss eine Instanz von GeometricProperties sein.")
          | _ => .error (.validationError
              "Ungueltiges Material. Muss ein Mitglied des MaterialType-Enums sein.")
    | _, _, _, _ => .error (.typeError "missing required positional argument")

/-- The message of the ValidationError raised by the ArchitecturalModel
post-init hook when an entry of the elements dict is not an
ArchitecturalElement instance. -/
def elemInstMsg (k : String) : String :=
  "Element mit ID " ++ k ++ " ist keine gueltige ArchitecturalElement-Instanz."

/-- Keyword parameters of the generated ArchitecturalModel constructor. -/
def modelInitKeys : List String := ["name", "elements"]

/-- ArchitecturalModel(**fv): the generated constructor (elements defaults
to an empty dict) followed by the post-init validation: non-falsy name,
and every entry of the elements mapping an ArchitecturalElement instance
whose id equals its key.  Via the decoder the elements value is a raw JSON
tree passed through unconverted, so a non-empty elements object fails the
isinstance check at its first entry, and a non-dict elements value fails
with AttributeError when .items() is called on it. -/
def constructModel (fv : List (String × PyVal)) : Except AppError PyVal :=
  match firstUnexpected modelInitKeys fv with
  | some k => .error (.typeError ("got an unexpected keyword argument " ++ k))
  | none =>
    match alistLookup fv "name" with
    | none => .error (.typeError "missing required positional argument name")
    | some nameV =>
        let elemsV : PyVal := (alistLookup fv "elements").getD (.json (.obj []))
        if pyFalsy nameV then .error (.validationError "Modellname darf nicht leer sein.")
        else
          match elemsV with
          | .json (.obj []) => .ok (.model ⟨pyStr nameV, []⟩)
          | .json (.obj ((k, _) :: _)) => .error (.validationError (elemInstMsg k))
          | _ => .error (.attributeError "object has no attribute items")

/-- The declared (semantic) type of a dataclass field, as inspected by
_deserialize_dataclass via get_origin / issubclass.  Only the field types
actually occurring in the iterated annotation tables of this program are
represented: str and float (the plain-scalar else-branch), the
ElementType enum, and the two dict-typed fields (custom Dict[str, Any]
never occurs in an iterated table; Dict[str, ArchitecturalElement] and
the annotation tables below show which do).  The list-, Optional-, Path-
and nested-dataclass branches of the source are unreachable here: no
iterated annotation has a list or Path type, get_origin never yields
Optional, and because each concrete subclass only carries its own
redeclared element_type annotation, no dataclass-typed field is ever
iterated. -/
inductive FieldTy where
  | str | float | enumElementType | dictStrAny | dictStrElement
deriving DecidableEq, Repr

/-- The dataclass targets _deserialize_dataclass is invoked with in this
program (all satisfy the is_dataclass precondition). -/
inductive TargetClass where
  | geometricProperties | architecturalElement | beam | wall | column | architecturalModel
deriving DecidableEq, Repr

/-- The concrete class actually instantiated after polymorphic dispatch
(the abstract ArchitecturalElement is always replaced before the field
loop runs). -/
inductive ConcreteTarget where
  | geometricProperties | beam | wall | column | architecturalModel
deriving DecidableEq, Repr

/-- str() name of the concrete class (used in the error-wrapping message). -/
def ConcreteTarget.clsName : ConcreteTarget → String
  | .geometricProperties => "GeometricProperties"
  | .beam => "Beam"
  | .wall => "Wall"
  | .column => "Column"
  | .architecturalModel => "ArchitecturalModel"

/-- The __annotations__ table iterated by the field loop for each concrete
target.  Crucially, Python class __annotations__ contains only the
annotations of the class body itself: Beam, Wall and Column each carry
only their redeclared element_type, NOT the fields inherited from
ArchitecturalElement; GeometricProperties and ArchitecturalModel declare
all their fields themselves. -/
def classFields : ConcreteTarget → List (String × FieldTy)
  | .geometricProperties => [("length", .float), ("width", .float), ("height", .float)]
  | .beam => [("element_type", .enumElementType)]
  | .wall => [("element_type", .enumElementType)]
  | .column => [("element_type", .enumElementType)]
  | .architecturalModel => [("name", .str), ("elements", .dictStrElement)]

/-- element_type_class_map.get: the static registry from ElementType wire
value to concrete class, containing exactly Beam, Wall and Column. -/
def registryLookup (s : String) : Option ConcreteTarget :=
  if s = "Beam" then some .beam
  else if s = "Wall" then some .wall
  else if s = "Column" then some .column
  else none

/-- Polymorphic dispatch: for the abstract target ArchitecturalElement,
read data.get of the element_type key (absent key and JSON null both give
Python None), then look the value up in the registry; every other target
is already concrete.  A missing discriminator and an unregistered one are
ValidationError; an unhashable (composite) discriminator value raises
TypeError from dict.get. -/
def resolveActual (entries : List (String × JValue)) :
    TargetClass → Except AppError ConcreteTarget
  | .geometricProperties => .ok .geometricProperties
  | .beam => .ok .beam
  | .wall => .ok .wall
  | .column => .ok .column
  | .architecturalModel => .ok .architecturalModel
  | .architecturalElement =>
      match alistLookup entries "element_type" with
      | none => .error (.validationError
          "Kann ArchitecturalElement nicht deserialisieren: element_type fehlt im Daten-Dictionary.")
      | some .null => .error (.validationError
          "Kann ArchitecturalElement nicht deserialisieren: element_type fehlt im Daten-Dictionary.")
      | some (.str s) =>
          match registryLookup s with
          | some c => .ok c
          | none => .error (.validationError "Unbekannter ElementType fuer die Deserialisierung.")
      | some (.num _) => .error (.validationError "Unbekannter ElementType fuer die Deserialisierung.")
      | some (.bool _) => .error (.validationError "Unbekannter ElementType fuer die Deserialisierung.")
      | some (.arr _) => .error (.typeError "unhashable type")
      | some (.obj _) => .error (.typeError "unhashable type")

/-- Conversion of one present field value according to its declared type:
dict-typed fields are passed through as the raw JSON tree (get_origin is
dict), enum fields go through ElementType(value) with ValueError rewrapped
as ValidationError, and plain scalars are passed through verbatim. -/
def decodeField : FieldTy → JValue → Except AppError PyVal
  | .dictStrAny, v => .ok (.json v)
  | .dictStrElement, v => .ok (.json v)
  | .str, v => .ok (.json v)
  | .float, v => .ok (.json v)
  | .enumElementType, v =>
      match v with
      | .str s =>
          match elementTypeOfValue s with
          | some e => .ok (.elementType e)
          | none => .error (.validationError "Fehler bei der Deserialisierung von Enum element_type")
      | _ => .error (.validationError "Fehler bei der Deserialisierung von Enum element_type")

/-- The field loop of _deserialize_dataclass: for each declared field, skip
it if its key is absent from the input mapping (defaults are left to the
constructor), otherwise convert the raw value; the first conversion error
propagates. -/
def buildFieldValues (entries : List (String × JValue)) :
    List (String × FieldTy) → Except AppError (List (String × PyVal))
  | [] => .ok []
  | (fname, fty) :: rest =>
      match alistLookup entries fname with
      | none => buildFieldValues entries rest
      | some v =>
          match decodeField fty v with
          | .error e => .error e
          | .ok pv =>
              match buildFieldValues entries rest with
              | .error e => .error e
              | .ok tail => .ok ((fname, pv) :: tail)

/-- Dispatch to the concrete constructor (the try-block around
actual_target_class(**field_values)). -/
def constructClass : ConcreteTarget → List (String × PyVal) → Except AppError PyVal
  | .geometricProperties, fv => constructGeometric fv
  | .beam, fv => constructElement .beam fv
  | .wall, fv => constructElement .wall fv
  | .column, fv => constructElement .column fv
  | .architecturalModel, fv => constructModel fv

/-- _deserialize_dataclass(data, target_class): reject non-dict data with
TypeError, resolve the polymorphic target, run the field loop, construct,
and rewrap a construction TypeError as ValidationError while re-raising a
construction ValidationError unchanged (the except clauses at the end of
the source function). -/
def deserializeDataclass (data : JValue) (target : TargetClass) : Except AppError PyVal :=
  match data with
  | .obj entries =>
      match resolveActual entries target with
      | .error e => .error e
      | .ok actual =>
          match buildFieldValues entries (classFields actual) with
          | .error e => .error e
          | .ok fv =>
              match constructClass actual fv with
              | .error (.typeError m) =>
                  .error (.validationError
                    ("Fehler beim Instanziieren von " ++ actual.clsName ++ ": " ++ m))
              | r => r
  | _ => .error (.typeError "Daten muessen ein Dictionary sein")

/-- asdict followed by ArchitechLensJSONEncoder on a GeometricProperties
value: a plain mapping of the three numeric fields. -/
def encodeGeometric (g : GeometricProperties) : JValue :=
  .obj [("length", .num g.length), ("width", .num g.width), ("height", .num g.height)]

/-- asdict followed by ArchitechLensJSONEncoder on an element: fields in
dataclass order, enums replaced by their underlying values, the custom
properties mapping emitted verbatim. -/
def encodeElement (e : ArchElement) : JValue :=
  .obj [("id", .str e.id),
        ("name", .str e.name),
        ("element_type", .str e.element_type.value),
        ("material", .str e.material.value),
        ("geometric_properties", encodeGeometric e.geometric_properties),
        ("custom_properties", .obj e.custom_properties)]

/-- asdict followed by ArchitechLensJSONEncoder on a model: the elements
dict is emitted as a nested JSON object keyed by element id. -/
def encodeModel (m : ArchModel) : JValue :=
  .obj [("name", .str m.name),
        ("elements", .obj (m.elements.map (fun p => (p.1, encodeElement p.2))))]

/-- ArchitecturalModel.get_element: plain dict.get, returning None when
the id is absent (no exception). -/
def getElement (m : ArchModel) (eid : String) : Option ArchElement :=
  alistLookup m.elements eid

/-- ArchitecturalModel.add_element, as a state transformer: the returned
model is the state of the receiver after the call.  The duplicate check
raises before the dict assignment, so on failure the model is returned
unchanged.  (The leading isinstance guard of the source is vacuous here
because the argument is typed.) -/
def addElement (m : ArchModel) (e : ArchElement) : Except AppError Unit × ArchModel :=
  if (alistLookup m.elements e.id).isSome then
    (.error (.duplicateElementError
      ("Element mit ID " ++ e.id ++ " existiert bereits im Modell " ++ m.name ++ ".")), m)
  else
    (.ok (), { m with elements := alistInsert m.elements e.id e })

/-- ArchitecturalModel.remove_element, as a state transformer: the absence
check raises before dict.pop, so on failure the model is returned
unchanged. -/
def removeElement (m : ArchModel) (eid : String) : Except AppError ArchElement × ArchModel :=
  match alistLookup m.elements eid with
  | none =>
      (.error (.elementNotFoundError
        ("Element mit ID " ++ eid ++ " nicht im Modell " ++ m.name ++ " gefunden.")), m)
  | some e => (.ok e, { m with elements := alistErase m.elements eid })

/-- The content of one file of the model directory, seen through
json.load: either a parsed JSON tree, or syntactically invalid text
(json.load raises json.JSONDecodeError on it). -/
inductive FileData where
  | validJson (j : JValue) : FileData
  | invalidJson : FileData

/-- The state of an ArchitechLens instance: the files of its model
directory (name.json, association-list keyed by file name) and the
current_model selection. -/
structure LensState where
  files : List (String × FileData)
  current_model : Option ArchModel

/-- The top-level deserialization call of load_model; on success the
target ArchitecturalModel always yields a model value, so the non-model
success case below is unreachable. -/
def decodeModelTree (data : JValue) : Except AppError ArchModel :=
  match deserializeDataclass data .architecturalModel with
  | .ok (.model m) => .ok m
  | .ok _ => .error (.architechLensError "interner Fehler")
  | .error e => .error e

/-- ArchitechLens.load_model(model_name): missing file sets current_model
to None and raises FileNotFoundError; a json.JSONDecodeError, a
ValidationError, a TypeError and any other exception from deserialization
are each wrapped as ArchitechLensError, leaving the state untouched; on
success the loaded model becomes the current model. -/
def loadModel (st : LensState) (model_name : String) :
    Except AppError ArchModel × LensState :=
  let fname := model_name ++ ".json"
  match alistLookup st.files fname with
  | none =>
      (.error (.fileNotFoundError ("Modell-Datei " ++ fname ++ " existiert nicht.")),
       { st with current_model := none })
  | some .invalidJson =>
      (.error (.architechLensError ("Ungueltiges JSON-Format in Modell-Datei " ++ fname)), st)
  | some (.validJson data) =>
      match decodeModelTree data with
      | .ok m => (.ok m, { st with current_model := some m })
      | .error (.validationError msg) =>
          (.error (.architechLensError ("Modell-Validierungsfehler beim Laden: " ++ msg)), st)
      | .error (.typeError msg) =>
          (.error (.architechLensError ("Typfehler beim Deserialisieren: " ++ msg)), st)
      | .error _ =>
          (.error (.architechLensError "Unerwarteter Fehler beim Laden des Modells"), st)

/-- ArchitechLens.save_model: with no current model it logs a warning and
returns False without encoding or writing anything; otherwise it writes
the encoded current model to name.json and returns True.  (Every value
representable in this embedding has a JSON image, so the TypeError /
filesystem failure branches of the source are not exercised.) -/
def saveModel (st : LensState) : Except AppError Bool × LensState :=
  match st.current_model with
  | none => (.ok false, st)
  | some m =>
      (.ok true,
       { st with files := alistInsert st.files (m.name ++ ".json") (.validJson (encodeModel m)) })

/-- The keys of the input mapping that _deserialize_dataclass inspects for
a given target: for a concrete target the names of its iterated
annotations, and for the abstract ArchitecturalElement the discriminator
key (each registered concrete class then iterates exactly that same
key). -/
def readKeys : TargetClass → List String
  | .geometricProperties => ["length", "width", "height"]
  | .architecturalElement => ["element_type"]
  | .beam => ["element_type"]
  | .wall => ["element_type"]
  | .column => ["element_type"]
  | .architecturalModel => ["name", "elements"]

/-- The geometric properties of the specification scenario
(dimensions 10 x 0.3 x 3). -/
def demoGeo : GeometricProperties := ⟨10, 3/10, 3⟩

/-- A valid Wall element with id w1 (the minimal-scenario element). -/
def demoWallElem : ArchElement := ⟨.wall, "w1", "Aussenwand", .wall, .brick, demoGeo, []⟩

/-- A valid one-element model named Test (the minimal round-trip scenario
of the specification). -/
def demoModel : ArchModel := ⟨"Test", [("w1", demoWallElem)]⟩

/-- A complete element mapping for a Wall, with the discriminator carrying
the wire value of ElementType.WALL. -/
def wallEntries : List (String × JValue) :=
  [("id", .str "w1"), ("name", .str "Wand"), ("element_type", .str "Wall"),
   ("material", .str "Brick"), ("geometric_properties", encodeGeometric demoGeo),
   ("custom_properties", .obj [])]

/-- A GeometricProperties mapping with a negative length: decoding it makes
the construct-time validation fail. -/
def gpNegEntries : List (String × JValue) :=
  [("length", .num (-1)), ("width", .num 1), ("height", .num 1)]

/-- The field values the decoder hands to the GeometricProperties
constructor for gpNegEntries (every field is a passed-through scalar). -/
def gpNegFieldValues : List (String × PyVal) :=
  [("length", .json (.num (-1))), ("width", .json (.num 1)), ("height", .json (.num 1))]

/-- A well-formed GeometricProperties mapping. -/
def gpOkEntries : List (String × JValue) :=
  [("length", .num 2), ("width", .num 3), ("height", .num 4)]

/-- An empty model used as a concrete lookup-failure input. -/
def modelEmptyM : ArchModel := ⟨"M", []⟩

/-- The model obtained from modelEmptyM by adding demoWallElem. -/
def modelOneM : ArchModel := ⟨"M", [("w1", demoWallElem)]⟩

/-! ## Helper lemmas -/

/-- Lookup skips a leading entry with a different key. -/
theorem alistLookup_cons_of_ne {α : Type} (entries : List (String × α)) (k key : String)
    (v : α) (h : key ≠ k) :
    alistLookup ((k, v) :: entries) key = alistLookup entries key := by
  simp [alistLookup, h]

/-- Inserting under a fresh key grows an association list by one entry. -/
theorem alistInsert_length_of_none {α : Type} (l : List (String × α)) (key : String) (v : α)
    (h : alistLookup l key = none) : (alistInsert l key v).length = l.length + 1 := by
  induction l with
  | nil => rfl
  | cons p rest ih =>
      obtain ⟨k, w⟩ := p
      by_cases hk : key = k
      · simp [alistLookup, hk] at h
      · simp only [alistLookup, if_neg hk] at h
        simp [alistInsert, hk, ih h]

/-- Looking up the key just inserted yields the inserted value. -/
theorem alistLookup_insert_self {α : Type} (l : List (String × α)) (key : String) (v : α) :
    alistLookup (alistInsert l key v) key = some v := by
  induction l with
  | nil => simp [alistInsert, alistLookup]
  | cons p rest ih =>
      obtain ⟨k, w⟩ := p
      by_cases hk : key = k
      · simp [alistInsert, alistLookup, hk]
      · simp [alistInsert, alistLookup, hk, ih]

/-- The field loop never looks at a key that names none of the iterated
fields. -/
theorem buildFieldValues_cons_of_ne (entries : List (String × JValue)) (k : String)
    (v : JValue) (flds : List (String × FieldTy)) (h : ∀ f ∈ flds, f.1 ≠ k) :
    buildFieldValues ((k, v) :: entries) flds = buildFieldValues entries flds := by
  induction flds with
  | nil => rfl
  | cons f rest ih =>
      obtain ⟨fname, fty⟩ := f
      have hne : fname ≠ k := h (fname, fty) (List.mem_cons_self _ _)
      have hrest : ∀ f ∈ rest, f.1 ≠ k := fun f hf => h f (List.mem_cons_of_mem _ hf)
      simp only [buildFieldValues, alistLookup_cons_of_ne entries k fname v hne, ih hrest]

/-- Polymorphic dispatch ignores a leading entry whose key is not the
discriminator. -/
theorem resolveActual_cons_of_ne (entries : List (String × JValue)) (k : String) (v : JValue)
    (h : k ≠ "element_type") (t : TargetClass) :
    resolveActual ((k, v) :: entries) t = resolveActual entries t := by
  cases t <;>
    simp only [resolveActual, alistLookup_cons_of_ne entries k "element_type" v (Ne.symm h)]

/-- Dispatch on the abstract element target only ever resolves to one of
the three registered classes, whose iterated annotation table is exactly
the redeclared discriminator field. -/
theorem resolveActual_element_fields (entries : List (String × JValue)) (c : ConcreteTarget)
    (h : resolveActual entries .architecturalElement = .ok c) :
    classFields c = [("element_type", FieldTy.enumElementType)] := by
  simp only [resolveActual] at h
  cases hl : alistLookup entries "element_type" with
  | none => rw [hl] at h; cases h
  | some jv =>
      rw [hl] at h
      cases jv with
      | null => cases h
      | num q => cases h
      | bool b => cases h
      | arr l => cases h
      | obj l => cases h
      | str s =>
          simp only [registryLookup] at h
          split_ifs at h <;> cases h <;> rfl

/-- A value not in the enumeration is also not in the registry (the
registry keys are a subset of the enumeration values). -/
theorem registryLookup_eq_none (s : String) (h : elementTypeOfValue s = none) :
    registryLookup s = none := by
  unfold registryLookup
  split_ifs with h1 h2 h3
  · subst h1; simp [elementTypeOfValue] at h
  · subst h2; simp [elementTypeOfValue] at h
  · subst h3; simp [elementTypeOfValue] at h
  · rfl

/-! ## Claim theorems -/

/-- Claim C1 (round-trip law; the code violates it).  Evaluating the code
at the failing input: encoding the valid one-element model demoModel and
decoding the resulting JSON tree does not reproduce the model; it fails
with the ValidationError raised by the ArchitecturalModel post-init hook,
because the decoder passes the dict-typed elements field through as raw
JSON mappings instead of deserializing the contained elements. -/
theorem c1_roundtrip_decode_fails :
    deserializeDataclass (encodeModel demoModel) .architecturalModel
      = .error (.validationError (elemInstMsg "w1")) := by rfl

/-- Claim C2 (discriminator dispatch; the code violates it).  Evaluating
the code at the failing input: for a complete Wall mapping whose
discriminator carries the registered wire value of ElementType.WALL, the
dispatch step does resolve the Wall class, but decoding yields no Wall
instance: the only iterated annotation of the subclass is the init=False
element_type field, so construction fails with TypeError (rewrapped as
ValidationError).  With the literal member name WALL as discriminator
(the claim text), and likewise for a member without a registered class,
decoding fails with the unknown-type error instead of falling back to the
generic (abstract, uninstantiable) shape. -/
theorem c2_wall_dispatch_no_instance :
    resolveActual wallEntries .architecturalElement = .ok .wall
  ∧ deserializeDataclass (.obj wallEntries) .architecturalElement
      = .error (.validationError
          "Fehler beim Instanziieren von Wall: got an unexpected keyword argument element_type")
  ∧ deserializeDataclass (.obj [("element_type", .str "WALL")]) .architecturalElement
      = .error (.validationError "Unbekannter ElementType fuer die Deserialisierung.")
  ∧ deserializeDataclass (.obj [("element_type", .str "Door")]) .architecturalElement
      = .error (.validationError "Unbekannter ElementType fuer die Deserialisierung.") :=
  ⟨rfl, rfl, rfl, rfl⟩

/-- Claim C3: decoding with the abstract element target fails when the
discriminator field is absent (missing-discriminator ValidationError),
fails with the unknown-type ValidationError when the discriminator is
present but not a member of the ElementType enumeration (shown for string
values outside the enumeration and for non-string scalars; a composite
discriminator also fails, with TypeError from the unhashable dict key),
and never silently defaults: any successful decode requires a
discriminator that is a registered wire value.  The program has no
DeserializationError class; the decoder signals these failures as
ValidationError. -/
theorem c3_discriminator_failures :
    (∀ entries : List (String × JValue), alistLookup entries "element_type" = none →
       deserializeDataclass (.obj entries) .architecturalElement
         = .error (.validationError
             "Kann ArchitecturalElement nicht deserialisieren: element_type fehlt im Daten-Dictionary."))
  ∧ (∀ entries : List (String × JValue), ∀ s : String,
       alistLookup entries "element_type" = some (.str s) →
       elementTypeOfValue s = none →
       deserializeDataclass (.obj entries) .architecturalElement
         = .error (.validationError "Unbekannter ElementType fuer die Deserialisierung."))
  ∧ (∀ entries : List (String × JValue), ∀ q : ℚ,
       alistLookup entries "element_type" = some (.num q) →
       deserializeDataclass (.obj entries) .architecturalElement
         = .error (.validationError "Unbekannter ElementType fuer die Deserialisierung."))
  ∧ (∀ entries : List (String × JValue), ∀ pv : PyVal,
       deserializeDataclass (.obj entries) .architecturalElement = .ok pv →
       ∃ s c, alistLookup entries "element_type" = some (.str s) ∧ registryLookup s = some c) := by
  refine ⟨?_, ?_, ?_, ?_⟩
  · intro entries h
    simp [deserializeDataclass, resolveActual, h]
  · intro entries s h hn
    simp [deserializeDataclass, resolveActual, h, registryLookup_eq_none s hn]
  · intro entries q h
    simp [deserializeDataclass, resolveActual, h]
  · intro entries pv h
    simp only [deserializeDataclass, resolveActual] at h
    cases hl : alistLookup entries "element_type" with
    | none => simp [hl] at h
    | some jv =>
        cases jv with
        | null => simp [hl] at h
        | num q => simp [hl] at h
        | bool b => simp [hl] at h
        | arr l => simp [hl] at h
        | obj l => simp [hl] at h
        | str s =>
            cases hr : registryLookup s with
            | none => simp [hl, hr] at h
            | some c => exact ⟨s, c, by simp [hl], hr⟩

/-- Claim C3 witness: the hypotheses of the first two conjuncts hold at
concrete inputs: an element mapping without a discriminator, and the
SPACESHIP scenario of the specification. -/
theorem c3_witness :
    deserializeDataclass (.obj []) .architecturalElement
      = .error (.validationError
          "Kann ArchitecturalElement nicht deserialisieren: element_type fehlt im Daten-Dictionary.")
  ∧ deserializeDataclass (.obj [("element_type", .str "SPACESHIP")]) .architecturalElement
      = .error (.validationError "Unbekannter ElementType fuer die Deserialisierung.") :=
  ⟨c3_discriminator_failures.1 [] rfl,
   c3_discriminator_failures.2.1 [("element_type", .str "SPACESHIP")] "SPACESHIP" rfl rfl⟩

/-- Claim C4 counterexample: the claim that a construction-time
ValidationError is re-signaled as a distinct wrapper error (rather than
surfaced raw) is false.  At the concrete input gpNegEntries the decoder
output is exactly the value produced by the constructor call: the raw
construction ValidationError is surfaced unchanged. -/
theorem c4_counterexample :
    constructGeometric gpNegFieldValues
      = .error (.validationError
          "Abmessungen (Laenge, Breite, Hoehe) muessen positive Zahlen sein.")
  ∧ deserializeDataclass (.obj gpNegEntries) .geometricProperties
      = constructGeometric gpNegFieldValues :=
  ⟨rfl, rfl⟩

/-- Claim C4 as amended: the decoder re-raises a construction-time
ValidationError unchanged (raw), and only a construction-time TypeError is
rewrapped as a ValidationError carrying the instantiation context; the
program defines no separate deserialization error class. -/
theorem c4_construction_error_propagation (entries : List (String × JValue))
    (target : TargetClass) (actual : ConcreteTarget) (fv : List (String × PyVal))
    (hres : resolveActual entries target = .ok actual)
    (hfv : buildFieldValues entries (classFields actual) = .ok fv) :
    (∀ msg, constructClass actual fv = .error (.validationError msg) →
       deserializeDataclass (.obj entries) target = .error (.validationError msg))
  ∧ (∀ msg, constructClass actual fv = .error (.typeError msg) →
       deserializeDataclass (.obj entries) target
         = .error (.validationError
             ("Fehler beim Instanziieren von " ++ actual.clsName ++ ": " ++ msg))) := by
  constructor <;> intro msg hc <;> simp [deserializeDataclass, hres, hfv, hc]

/-- Claim C4 witness: the amended theorem applied at the concrete negative
geometry input. -/
theorem c4_witness :
    deserializeDataclass (.obj gpNegEntries) .geometricProperties
      = .error (.validationError
          "Abmessungen (Laenge, Breite, Hoehe) muessen positive Zahlen sein.") :=
  (c4_construction_error_propagation gpNegEntries .geometricProperties
      .geometricProperties gpNegFieldValues rfl rfl).1 _ rfl

/-- Claim C5 counterexample: get_element on an absent identifier does not
fail with ElementNotFoundError; at the concrete input it returns None (a
plain dict.get, exactly as its own docstring says). -/
theorem c5_counterexample : getElement modelEmptyM "fehlt" = none := rfl

/-- Claim C5 as amended: for an identifier absent from the element
mapping, remove_element fails with ElementNotFoundError, while
get_element returns None without raising. -/
theorem c5_absent_id (m : ArchModel) (eid : String)
    (h : alistLookup m.elements eid = none) :
    getElement m eid = none
  ∧ removeElement m eid
      = (.error (.elementNotFoundError
          ("Element mit ID " ++ eid ++ " nicht im Modell " ++ m.name ++ " gefunden.")), m) := by
  constructor
  · simpa [getElement] using h
  · simp [removeElement, h]

/-- Claim C5 witness: the amended theorem at a concrete empty model. -/
theorem c5_witness :
    getElement modelEmptyM "fehlt" = none
  ∧ removeElement modelEmptyM "fehlt"
      = (.error (.elementNotFoundError
          ("Element mit ID " ++ "fehlt" ++ " nicht im Modell " ++ modelEmptyM.name ++ " gefunden.")),
         modelEmptyM) :=
  c5_absent_id modelEmptyM "fehlt" rfl

/-- Claim C6: after a successful add_element, adding a second element with
the same identifier fails with DuplicateElementError, the model state
after the failed call is unchanged, and the element count still reflects
only the first insertion. -/
theorem c6_duplicate_rejected (m m1 : ArchModel) (e e2 : ArchElement)
    (hid : e2.id = e.id)
    (h1 : addElement m e = (.ok (), m1)) :
    (addElement m1 e2).1
      = .error (.duplicateElementError
          ("Element mit ID " ++ e2.id ++ " existiert bereits im Modell " ++ m1.name ++ "."))
  ∧ (addElement m1 e2).2 = m1
  ∧ m1.elements.length = m.elements.length + 1 := by
  unfold addElement at h1
  by_cases hm : (alistLookup m.elements e.id).isSome
  · rw [if_pos hm] at h1
    exact absurd (congrArg Prod.fst h1) (by simp)
  · rw [if_neg hm] at h1
    have hnone : alistLookup m.elements e.id = none := Option.not_isSome_iff_eq_none.mp hm
    have hm1 : m1 = { m with elements := alistInsert m.elements e.id e } :=
      (congrArg Prod.snd h1).symm
    subst hm1
    have hdup : alistLookup (alistInsert m.elements e.id e) e2.id = some e := by
      rw [hid]; exact alistLookup_insert_self m.elements e.id e
    refine ⟨?_, ?_, ?_⟩
    · simp [addElement, hdup]
    · simp [addElement, hdup]
    · exact alistInsert_length_of_none m.elements e.id e hnone

/-- Claim C6 witness: adding demoWallElem to an empty model and then
adding an element with the same id again. -/
theorem c6_witness :
    (addElement modelOneM demoWallElem).1
      = .error (.duplicateElementError
          ("Element mit ID " ++ demoWallElem.id ++ " existiert bereits im Modell "
            ++ modelOneM.name ++ "."))
  ∧ (addElement modelOneM demoWallElem).2 = modelOneM
  ∧ modelOneM.elements.length = modelEmptyM.elements.length + 1 :=
  c6_duplicate_rejected modelEmptyM modelOneM demoWallElem demoWallElem rfl rfl

/-- Claim C7: when no file for the requested model name exists in the
model directory, load_model fails with the file-not-found error (Python
FileNotFoundError; the NotFoundError of the specification taxonomy). -/
theorem c7_missing_file (st : LensState) (model_name : String)
    (h : alistLookup st.files (model_name ++ ".json") = none) :
    (loadModel st model_name).1
      = .error (.fileNotFoundError
          ("Modell-Datei " ++ (model_name ++ ".json") ++ " existiert nicht.")) := by
  simp [loadModel, h]

/-- Claim C7 witness: loading the model nope from an empty store. -/
theorem c7_witness :
    (loadModel ⟨[], none⟩ "nope").1
      = .error (.fileNotFoundError
          ("Modell-Datei " ++ ("nope" ++ ".json") ++ " existiert nicht.")) :=
  c7_missing_file ⟨[], none⟩ "nope" rfl

/-- Claim C8: loading a file with syntactically invalid JSON fails with
the wrapped JSON-format error (ArchitechLensError wrapping
json.JSONDecodeError; the DeserializationError of the specification
taxonomy), and the current-model selection, unset before the call, is
still unset afterwards: the failed load does not assign it. -/
theorem c8_malformed_json (st : LensState) (model_name : String)
    (hcur : st.current_model = none)
    (h : alistLookup st.files (model_name ++ ".json") = some .invalidJson) :
    (loadModel st model_name).1
      = .error (.architechLensError
          ("Ungueltiges JSON-Format in Modell-Datei " ++ (model_name ++ ".json")))
  ∧ (loadModel st model_name).2.current_model = none := by
  constructor
  · simp [loadModel, h]
  · simp [loadModel, h, hcur]

/-- Claim C8 witness: loading the model bad from a store whose only file
holds invalid JSON. -/
theorem c8_witness :
    (loadModel ⟨[("bad.json", .invalidJson)], none⟩ "bad").1
      = .error (.architechLensError
          ("Ungueltiges JSON-Format in Modell-Datei " ++ ("bad" ++ ".json")))
  ∧ (loadModel ⟨[("bad.json", .invalidJson)], none⟩ "bad").2.current_model = none :=
  c8_malformed_json ⟨[("bad.json", .invalidJson)], none⟩ "bad" rfl rfl

/-- A leading entry is invisible to the whole decoder run when dispatch
ignores its key and no iterated field of the resolved class names it. -/
theorem deserialize_cons_invisible (entries : List (String × JValue)) (k : String)
    (v : JValue) (target : TargetClass)
    (hres : resolveActual ((k, v) :: entries) target = resolveActual entries target)
    (hflds : ∀ c, resolveActual entries target = .ok c → ∀ f ∈ classFields c, f.1 ≠ k) :
    deserializeDataclass (.obj ((k, v) :: entries)) target
      = deserializeDataclass (.obj entries) target := by
  simp only [deserializeDataclass, hres]
  cases hc : resolveActual entries target with
  | error e => rfl
  | ok c =>
      dsimp only
      rw [buildFieldValues_cons_of_ne entries k v (classFields c) (hflds c hc)]

/-- Claim C9 (unknown-field tolerance): an extra entry whose key is not
one of the keys the decoder inspects for the given target never changes
the outcome of decoding — in particular it never causes an error, and it
cannot occur in the resulting typed value, which is assembled only from
the declared fields. -/
theorem c9_unknown_field_ignored (target : TargetClass) (entries : List (String × JValue))
    (k : String) (v : JValue) (hk : k ∉ readKeys target) :
    deserializeDataclass (.obj ((k, v) :: entries)) target
      = deserializeDataclass (.obj entries) target := by
  cases target with
  | architecturalElement =>
      have hne : k ≠ "element_type" := fun h => hk (by simp [readKeys, h])
      refine deserialize_cons_invisible entries k v _
        (resolveActual_cons_of_ne entries k v hne _) ?_
      intro c hc f hf
      rw [resolveActual_element_fields entries c hc] at hf
      fin_cases hf
      intro h
      exact hne h.symm
  | geometricProperties =>
      refine deserialize_cons_invisible entries k v _ rfl ?_
      intro c hc f hf
      cases hc
      fin_cases hf <;> (intro h; exact hk (by simp [readKeys, ← h]))
  | beam =>
      refine deserialize_cons_invisible entries k v _ rfl ?_
      intro c hc f hf
      cases hc
      fin_cases hf
      intro h
      exact hk (by simp [readKeys, ← h])
  | wall =>
      refine deserialize_cons_invisible entries k v _ rfl ?_
      intro c hc f hf
      cases hc
      fin_cases hf
      intro h
      exact hk (by simp [readKeys, ← h])
  | column =>
      refine deserialize_cons_invisible entries k v _ rfl ?_
      intro c hc f hf
      cases hc
      fin_cases hf
      intro h
      exact hk (by simp [readKeys, ← h])
  | architecturalModel =>
      refine deserialize_cons_invisible entries k v _ rfl ?_
      intro c hc f hf
      cases hc
      fin_cases hf <;> (intro h; exact hk (by simp [readKeys, ← h]))

/-- Claim C9 witness: adding the undeclared key extra to a well-formed
GeometricProperties mapping leaves decoding unchanged, and decoding still
succeeds with the extra field absent from the typed value. -/
theorem c9_witness :
    "extra" ∉ readKeys TargetClass.geometricProperties
  ∧ deserializeDataclass (.obj (("extra", .str "x") :: gpOkEntries)) .geometricProperties
      = deserializeDataclass (.obj gpOkEntries) .geometricProperties
  ∧ deserializeDataclass (.obj gpOkEntries) .geometricProperties = .ok (.geom ⟨2, 3, 4⟩) :=
  ⟨by decide,
   c9_unknown_field_ignored .geometricProperties gpOkEntries "extra" (.str "x") (by decide),
   rfl⟩

/-- Claim C10: save_model with no current model returns False, raises no
exception and leaves the state (in particular the model directory)
completely unchanged: no encoding and no file write happen. -/
theorem c10_save_without_model (st : LensState) (h : st.current_model = none) :
    saveModel st = (.ok false, st) := by
  simp [saveModel, h]

/-- Claim C10 witness: saving on a fresh store with no current model. -/
theorem c10_witness : saveModel ⟨[], none⟩ = (.ok false, ⟨[], none⟩) :=
  c10_save_without_model ⟨[], none⟩ rfl

end ArchLens
